import Mathlib

/-!
Verification of the query-and-answer pipeline of the Bedrock knowledge-base
scripts (`scripts/query_knowledge_base.py` and `scripts/query_kb_retrieve.py`).

The Python functions are shallowly embedded as Lean functions:

* Python dict/JSON values are modelled by `JVal`; `dict.get(k, d)` on a known
  dict becomes an association-list lookup with a default, `d[k]` (bare
  indexing) becomes a fallible access returning `Except`.
* Retrieved passages (the elements of `retrievalResults`) are modelled by
  `RetrievalResult`, flattening the nested dict accesses actually performed by
  the scripts: `result.get('content', {}).get('text', d)` is
  `contentText.getD d` (a `none` covers both a missing `content` dict and a
  missing `text` key, which the chained `.get` treats identically), and
  similarly for `metadata.source`, `metadata.page_number` and
  `location.s3Location.uri`.
* External service calls (`retrieve`, `retrieve_and_generate`,
  `invoke_model`) are oracles passed in as `Except`-valued arguments; a
  Python exception raised by the call is the `Except.error` case.  `print`
  side effects are dropped: only returned values and raised exceptions are
  modelled.
* Python string slicing `s[:200]` is `String.take 200` (both operate on code
  points); `len(s)` is `String.length`; `'a' in b` on lowered strings is
  `pyIn`.
* Scores are Python numbers; they are modelled as `ℚ` and the `f"{score:.2f}"`
  rendering by `renderScore2` (decimal rounding approximating Python float
  formatting; no verified property depends on score rendering).
-/

namespace BedrockKB

/-- Model of a Python/JSON value as manipulated by the scripts. -/
inductive JVal where
  | s (v : String)
  | n (v : ℚ)
  | arr (vs : List JVal)
  | obj (fields : List (String × JVal))
deriving Repr

/-- The single-quote character used by the Python `str` rendering of dicts. -/
def pyQuote : String := "\x27"

/-- Model of Python `str(number)` (the exact numeric rendering is irrelevant
to every verified property). -/
def renderNum (v : ℚ) : String := toString v

mutual

/-- Model of Python `str(value)` for a parsed JSON value: dicts render as
`\x7b'k': v, ...\x7d`, strings with single quotes (escaping of special
characters inside strings is not modelled; no verified property depends
on it). -/
def JVal.render : JVal → String
  | .s v => pyQuote ++ v ++ pyQuote
  | .n v => renderNum v
  | .arr vs => "[" ++ String.intercalate ", " (JVal.renderList vs) ++ "]"
  | .obj fs => "\x7b" ++ String.intercalate ", " (JVal.renderFields fs) ++ "\x7d"

/-- Renders the elements of a Python list. -/
def JVal.renderList : List JVal → List String
  | [] => []
  | v :: vs => v.render :: JVal.renderList vs

/-- Renders the key-value pairs of a Python dict. -/
def JVal.renderFields : List (String × JVal) → List String
  | [] => []
  | (k, v) :: fs => (pyQuote ++ k ++ pyQuote ++ ": " ++ v.render) :: JVal.renderFields fs

end

/-- Checks whether `needle` occurs as a contiguous run inside `hay`. -/
def pyInAux (needle : List Char) : List Char → Bool
  | [] => needle.isEmpty
  | l@(_ :: rest) => needle.isPrefixOf l || pyInAux needle rest

/-- Model of Python `needle in hay` for strings: substring containment. -/
def pyIn (needle hay : String) : Bool := pyInAux needle.data hay.data

/-- Model of Python `s.lower()`: characterwise lowercasing (the model
identifiers the scripts branch on are ASCII). -/
def pyLower (s : String) : String := String.mk (s.data.map Char.toLower)

/-- Model of the Python rendering `f"\x7bscore:.2f\x7d"`: two decimal digits,
rounding to the nearest hundredth (Python rounds the underlying binary float
half-to-even; the difference is immaterial here since no verified property
depends on score rendering). -/
def renderScore2 (v : ℚ) : String :=
  let cents : Int := Int.floor (v * 100 + 1 / 2)
  let ip : Int := cents / 100
  let fp : Nat := (cents % 100).toNat
  toString ip ++ "." ++ (if fp < 10 then "0" else "") ++ toString fp

/-- One element of the `retrievalResults` list returned by the retrieval
service, flattened to the four leaf fields the scripts actually read
(each `none` models the absence of the key, or of any enclosing dict,
along the chained accesses). -/
structure RetrievalResult where
  contentText : Option String
  metadataSource : Option String
  metadataPage : Option String
  locationUri : Option String
  score : Option ℚ
deriving Repr, DecidableEq

end BedrockKB

namespace BedrockKB.KBRetrieve

/-!
Embedding of `scripts/query_kb_retrieve.py`.
-/

/-- Embeds `query_knowledge_base` of `query_kb_retrieve.py`.  The external
`bedrock_agent_runtime.retrieve` call is the oracle `call`; its `.ok` value
is the `retrievalResults` entry of the response dict (`none` when the key is
absent, mirroring `response.get('retrievalResults', [])`).  The `except`
branch prints the error and returns `[]`. -/
def query_knowledge_base (call : Except String (Option (List RetrievalResult))) :
    List RetrievalResult :=
  match call with
  | .ok response => response.getD []
  | .error _ => []

/-- Embeds the preview expression of `format_results`:
`content[:200] + '...' if len(content) > 200 else content`. -/
def preview (content : String) : String :=
  if content.length > 200 then content.take 200 ++ "..." else content

/-- Embeds the three lines appended to `formatted` for the result of 1-based
rank `i` in `format_results`. -/
def resultLines (i : Nat) (r : RetrievalResult) : List String :=
  let content := r.contentText.getD ""
  let source := r.locationUri.getD "Unknown source"
  let score := r.score.getD 0
  ["\nResult " ++ toString i ++ " (Relevance: " ++ renderScore2 score ++ "):",
   "Source: " ++ source,
   "Content: " ++ preview content]

/-- The loop of `format_results`: `for i, result in enumerate(results, 1)`,
appending `resultLines` for each result. -/
def resultLinesAux (i : Nat) : List RetrievalResult → List String
  | [] => []
  | r :: rs => resultLines i r ++ resultLinesAux (i + 1) rs

/-- Embeds `format_results` of `query_kb_retrieve.py`. -/
def format_results (results : List RetrievalResult) : String :=
  if results.isEmpty then "No results found."
  else String.intercalate "\n" ("=== Search Results ===" :: resultLinesAux 1 results)

end BedrockKB.KBRetrieve

namespace BedrockKB.KBQuery

/-!
Embedding of `scripts/query_knowledge_base.py`.
-/

/-- Embeds `query_knowledge_base` of `query_knowledge_base.py`.  The whole
body is one `try`: the external `retrieve_and_generate` call (together with
the purely diagnostic listing calls, which only print) is the oracle `call`,
whose `.ok` value is the `retrievalResults` entry of the returned response
dict (`none` when the key is absent).  The `except` branch prints
troubleshooting tips and returns the literal dict
`\x7b"retrievalResults": []\x7d`, i.e. the key is present and maps to the
empty list. -/
def query_knowledge_base (call : Except String (Option (List RetrievalResult))) :
    Option (List RetrievalResult) :=
  match call with
  | .ok response => response
  | .error _ => some []

/-- The list comprehension building `context` in `generate_response`:
`f"Source \x7bi+1\x7d:\n\x7bresult['content']['text']\x7d"` for
`i, result in enumerate(knowledge_base_results)`.  The bare indexing
`result['content']['text']` raises `KeyError` when the key chain is absent,
hence the `Except`; `i` carries the running 1-based label. -/
def contextPartsAux (i : Nat) : List RetrievalResult → Except String (List String)
  | [] => .ok []
  | r :: rs =>
    match r.contentText with
    | none => .error "KeyError"
    | some t =>
      match contextPartsAux (i + 1) rs with
      | .error e => .error e
      | .ok parts => .ok (("Source " ++ toString i ++ ":\n" ++ t) :: parts)

/-- The labelled passages of the prompt context, in retrieval order
(`enumerate` starts labels at `Source 1`). -/
def contextParts (results : List RetrievalResult) : Except String (List String) :=
  contextPartsAux 1 results

/-- The `context` string of `generate_response`:
`"\n\n".join(labelled passages)`. -/
def buildContext (results : List RetrievalResult) : Except String String :=
  (contextParts results).map (String.intercalate "\n\n")

/-- The `full_prompt` template of `generate_response` (verbatim, including
the trailing space after "end. "). -/
def promptTemplate (context prompt : String) : String :=
  "Use the following pieces of context to answer the question at the end. \nIf you don\x27t know the answer, just say that you don\x27t know, don\x27t try to make up an answer.\n\n"
    ++ context ++ "\n\nQuestion: " ++ prompt ++ "\nHelpful Answer:"

/-- The request body built by `generate_response` (the dict passed to
`json.dumps`): model-family branching on `'claude' in model_id.lower()`. -/
def buildBody (model_id full_prompt : String) : List (String × JVal) :=
  if pyIn "claude" (pyLower model_id) then
    [("prompt", JVal.s ("\n\nHuman: " ++ full_prompt ++ "\n\nAssistant:")),
     ("max_tokens_to_sample", JVal.n 1000),
     ("temperature", JVal.n (1 / 2)),
     ("top_p", JVal.n (9 / 10))]
  else
    [("prompt", JVal.s full_prompt),
     ("max_tokens", JVal.n 1000),
     ("temperature", JVal.n (1 / 2)),
     ("top_p", JVal.n (9 / 10))]

/-- Model of Python `value.get(k, d)`: an association-list lookup with a
default when `value` is a dict, an `AttributeError` otherwise. -/
def pyGet (v : JVal) (k : String) (d : JVal) : Except String JVal :=
  match v with
  | .obj fs => .ok ((fs.lookup k).getD d)
  | _ => .error "AttributeError"

/-- Model of Python `value[i]` for a non-negative literal index: list and
string indexing succeed in range and raise `IndexError` past the end;
indexing any other value raises `TypeError`. -/
def pyIndex (v : JVal) (i : Nat) : Except String JVal :=
  match v with
  | .arr vs =>
    match vs.get? i with
    | some x => .ok x
    | none => .error "IndexError"
  | .s t =>
    match t.data.get? i with
    | some c => .ok (JVal.s (String.singleton c))
    | none => .error "IndexError"
  | _ => .error "TypeError"

/-- The response-parsing tail of `generate_response`: extracts the generated
text from the parsed `response_body` according to the model family.  The
`claude` branch is `response_body.get('completion', 'No response generated')`;
the `titan` branch is
`response_body.get('results', [\x7b\x7d])[0].get('outputText', 'No response generated')`;
every other family returns `str(response_body)`. -/
def extractText (model_id : String) (response_body : JVal) : Except String JVal :=
  if pyIn "claude" (pyLower model_id) then
    pyGet response_body "completion" (JVal.s "No response generated")
  else if pyIn "titan" (pyLower model_id) then
    match pyGet response_body "results" (JVal.arr [JVal.obj []]) with
    | .error e => .error e
    | .ok results =>
      match pyIndex results 0 with
      | .error e => .error e
      | .ok first => pyGet first "outputText" (JVal.s "No response generated")
  else
    .ok (JVal.s response_body.render)

/-- Embeds `generate_response` of `query_knowledge_base.py`.  Context
assembly and the prompt template run before the `try` block, so a `KeyError`
there propagates.  Inside the `try`, the external `invoke_model` call is the
oracle `invoke`, taking the request-body dict and returning the parsed
response body (`json.loads` of the raw body is folded into the oracle); the
`except` branch prints the error and re-raises, so both a failed call and a
failing extraction propagate as `.error`. -/
def generate_response (model_id prompt : String) (knowledge_base_results : List RetrievalResult)
    (invoke : List (String × JVal) → Except String JVal) : Except String JVal :=
  match contextParts knowledge_base_results with
  | .error e => .error e
  | .ok parts =>
    let context := String.intercalate "\n\n" parts
    let full_prompt := promptTemplate context prompt
    let body := buildBody model_id full_prompt
    match invoke body with
    | .error e => .error e
    | .ok response_body => extractText model_id response_body

/-- The content line of a reference entry:
`f"Content: \x7bcontent[:200]\x7d..."` — the first 200 characters of the
content, always followed by the literal `...`. -/
def referenceContentLine (content : String) : String :=
  "Content: " ++ content.take 200 ++ "..."

/-- One reference entry of `format_references`, for the result of 1-based
rank `i`. -/
def referenceEntry (i : Nat) (r : RetrievalResult) : String :=
  "\n--- Reference " ++ toString i ++ " ---\n"
    ++ "Source: " ++ r.metadataSource.getD "Unknown" ++ "\n"
    ++ "Page: " ++ r.metadataPage.getD "N/A" ++ "\n"
    ++ referenceContentLine (r.contentText.getD "No content")

/-- The loop of `format_references`:
`for i, result in enumerate(retrieval_results, 1)`. -/
def referenceEntriesAux (i : Nat) : List RetrievalResult → List String
  | [] => []
  | r :: rs => referenceEntry i r :: referenceEntriesAux (i + 1) rs

/-- The `references` list of `format_references`, in retrieval order with
1-based indices. -/
def referenceEntries (results : List RetrievalResult) : List String :=
  referenceEntriesAux 1 results

/-- Embeds `format_references` of `query_knowledge_base.py`. -/
def format_references (retrieval_results : List RetrievalResult) : String :=
  if retrieval_results.isEmpty then "No references found."
  else String.intercalate "\n" (referenceEntries retrieval_results)

/-- Model of Python `str.strip()` (whitespace trimmed from both ends). -/
def pyStrip (s : String) : String := s.trim

/-- Terminal outcome of one non-interactive run of `main`, keyed to what it
prints: `noResults` is the "No results found for your query." branch,
`success` carries the stripped response text and the formatted references,
`error` is the outer `except` branch printing `Error: ...`. -/
inductive Outcome where
  | noResults
  | success (answer : String) (references : String)
  | error (msg : String)
deriving Repr, DecidableEq

/-- Embeds the single-query path of `main` (the body of the outer `try`):
query the knowledge base, extract `retrievalResults`, branch on emptiness,
otherwise generate and format.  `generate_response` returning a non-string
would make `response_text.strip()` raise `AttributeError`, caught by the
outer `except`. -/
def mainPipeline (retrCall : Except String (Option (List RetrievalResult)))
    (invoke : List (String × JVal) → Except String JVal)
    (model_id query : String) : Outcome :=
  let response := query_knowledge_base retrCall
  let retrieval_results := response.getD []
  if retrieval_results.isEmpty then Outcome.noResults
  else
    match generate_response model_id query retrieval_results invoke with
    | .error e => Outcome.error e
    | .ok (JVal.s t) => Outcome.success (pyStrip t) (format_references retrieval_results)
    | .ok _ => Outcome.error "AttributeError"

end BedrockKB.KBQuery

namespace BedrockKB

/-!
Helper lemmas.
-/

lemma referenceEntriesAux_length (rs : List RetrievalResult) :
    ∀ i, (KBQuery.referenceEntriesAux i rs).length = rs.length := by
  induction rs with
  | nil => intro i; rfl
  | cons r rs ih => intro i; simp [KBQuery.referenceEntriesAux, ih]

lemma referenceEntriesAux_get (rs : List RetrievalResult) :
    ∀ (i j : Nat) (hj : j < rs.length),
      (KBQuery.referenceEntriesAux i rs).get? j
        = some (KBQuery.referenceEntry (i + j) (rs.get ⟨j, hj⟩)) := by
  induction rs with
  | nil => intro i j hj; simp at hj
  | cons r rs ih =>
    intro i j hj
    cases j with
    | zero =>
      show some (KBQuery.referenceEntry i r) = some (KBQuery.referenceEntry (i + 0) r)
      rw [Nat.add_zero]
    | succ j =>
      have hj' : j < rs.length := Nat.lt_of_succ_lt_succ hj
      have h := ih (i + 1) j hj'
      show (KBQuery.referenceEntriesAux (i + 1) rs).get? j
        = some (KBQuery.referenceEntry (i + (j + 1)) (rs.get ⟨j, hj'⟩))
      rw [show i + (j + 1) = (i + 1) + j from by omega]
      exact h

lemma contextPartsAux_ok (rs : List RetrievalResult) :
    ∀ i, (∀ r ∈ rs, r.contentText.isSome) →
      ∃ parts, KBQuery.contextPartsAux i rs = Except.ok parts
        ∧ parts.length = rs.length
        ∧ ∀ (j : Nat) (hj : j < rs.length) (t : String),
            (rs.get ⟨j, hj⟩).contentText = some t →
            parts.get? j = some ("Source " ++ toString (i + j) ++ ":\n" ++ t) := by
  induction rs with
  | nil =>
    intro i _
    exact ⟨[], rfl, rfl, by intro j hj; simp at hj⟩
  | cons r rs ih =>
    intro i hc
    have hr : r.contentText.isSome := hc r (by simp)
    obtain ⟨t0, ht0⟩ := Option.isSome_iff_exists.mp hr
    obtain ⟨parts, hp, hlen, hget⟩ := ih (i + 1) (fun x hx => hc x (by simp [hx]))
    refine ⟨("Source " ++ toString i ++ ":\n" ++ t0) :: parts, ?_, by simp [hlen], ?_⟩
    · simp [KBQuery.contextPartsAux, ht0, hp]
    · intro j hj t htj
      cases j with
      | zero =>
        have htr : r.contentText = some t := htj
        rw [ht0] at htr
        cases Option.some.inj htr
        show some ("Source " ++ toString i ++ ":\n" ++ t0)
          = some ("Source " ++ toString (i + 0) ++ ":\n" ++ t0)
        rw [Nat.add_zero]
      | succ j =>
        have hj' : j < rs.length := Nat.lt_of_succ_lt_succ hj
        have htj' : (rs.get ⟨j, hj'⟩).contentText = some t := htj
        have h := hget j hj' t htj'
        show parts.get? j = some ("Source " ++ toString (i + (j + 1)) ++ ":\n" ++ t)
        rw [show i + (j + 1) = (i + 1) + j from by omega]
        exact h

lemma render_obj_ne_sentinel (fs : List (String × JVal)) :
    JVal.render (JVal.obj fs) ≠ "No response generated" := by
  intro h
  have h2 := congrArg String.data h
  simp [JVal.render, String.data_append] at h2

/-!
Sample data used by counterexamples and witnesses.
-/

/-- A sample retrieved passage with a 5-character content text. -/
def r0 : RetrievalResult :=
  ⟨some "short", some "doc.pdf", some "3", some "s3://bucket/doc.pdf", some 0⟩

/-- A second sample passage. -/
def r1 : RetrievalResult :=
  ⟨some "second passage", some "doc2.pdf", some "7", some "s3://bucket/doc2.pdf", some (87 / 100)⟩

/-- A 201-character content string. -/
def longContent : String := String.mk (List.replicate 201 'x')

/-!
Claim C1.
-/

set_option maxRecDepth 8192 in
/-- Claim C1 counterexample: on a passage whose content is the 5-character
string "short", `format_references` still appends the ellipsis marker — its
entry ends in "Content: short...", not "Content: short" as the claim
requires for content of 200 characters or fewer. -/
theorem format_references_short_content_marker_ce :
    KBQuery.format_references [r0]
      = "\n--- Reference 1 ---\nSource: doc.pdf\nPage: 3\nContent: short..."
    ∧ KBQuery.format_references [r0]
      ≠ "\n--- Reference 1 ---\nSource: doc.pdf\nPage: 3\nContent: short" :=
  ⟨rfl, by decide⟩

/-- Claim C1 (amended): `format_results` previews content exactly as the
claim states (first 200 characters plus "..." when longer than 200, the
content unchanged otherwise), but `format_references` always appends the
"..." marker after the first `min(length, 200)` characters, regardless of
the content length.  The last two conjuncts tie the preview expressions to
the full formatting functions on a one-passage input. -/
theorem preview_truncation_policy (content : String) :
    (content.length > 200 →
      KBRetrieve.preview content = content.take 200 ++ "...")
    ∧ (content.length ≤ 200 → KBRetrieve.preview content = content)
    ∧ KBQuery.referenceContentLine content
        = "Content: " ++ content.take 200 ++ "..."
    ∧ (∀ r : RetrievalResult,
        KBQuery.format_references [r] = KBQuery.referenceEntry 1 r)
    ∧ (∀ r : RetrievalResult,
        KBRetrieve.format_results [r]
          = String.intercalate "\n" ("=== Search Results ===" :: KBRetrieve.resultLines 1 r)) := by
  refine ⟨?_, ?_, rfl, fun r => rfl, fun r => rfl⟩
  · intro h
    simp only [KBRetrieve.preview]
    rw [if_pos h]
  · intro h
    simp only [KBRetrieve.preview]
    rw [if_neg (by omega)]

set_option maxRecDepth 8192 in
/-- Witness for the amended C1 theorem, at a 201-character content and at
the 5-character content "short". -/
theorem preview_truncation_policy_witness :
    KBRetrieve.preview longContent = longContent.take 200 ++ "..."
    ∧ KBRetrieve.preview "short" = "short" :=
  ⟨(preview_truncation_policy longContent).1 (by decide),
   (preview_truncation_policy "short").2.1 (by decide)⟩

/-!
Claim C2.
-/

/-- Claim C2 counterexample: on the empty passage sequence
`format_references` returns "No references found." (with a trailing
period), which differs from the claimed literal sentinel
"No references found". -/
theorem format_references_sentinel_ce :
    KBQuery.format_references [] = "No references found."
    ∧ KBQuery.format_references [] ≠ "No references found" :=
  ⟨rfl, by decide⟩

/-- Claim C2 (amended): `format_references` is a pure function of its input
(being a Lean function of the passage list alone); on every non-empty input
it emits exactly one reference entry per passage (the entry list has the
input's length, and the output is their join), and on the empty input it
returns the literal sentinel "No references found." (trailing period
included). -/
theorem format_references_count (results : List RetrievalResult) :
    (results ≠ [] →
      (KBQuery.referenceEntries results).length = results.length
      ∧ KBQuery.format_references results
        = String.intercalate "\n" (KBQuery.referenceEntries results))
    ∧ KBQuery.format_references [] = "No references found." := by
  constructor
  · intro h
    refine ⟨referenceEntriesAux_length results 1, ?_⟩
    cases results with
    | nil => exact absurd rfl h
    | cons a l => rfl
  · rfl

/-- Witness for the amended C2 theorem, on a two-passage input. -/
theorem format_references_count_witness :
    (KBQuery.referenceEntries [r0, r1]).length = ([r0, r1] : List RetrievalResult).length
    ∧ KBQuery.format_references [r0, r1]
      = String.intercalate "\n" (KBQuery.referenceEntries [r0, r1]) :=
  (format_references_count [r0, r1]).1 (by decide)

/-!
Claim C3.
-/

/-- Claim C3: retrieval rank order is preserved by context assembly and by
reference formatting.  For every passage list whose passages carry a content
text, the context parts list built by `generate_response` has one entry per
passage, its entry of 0-based position `i` is the passage of rank `i`
labeled "Source i+1", the context is their join separated by a double line
break, and the reference list likewise has one entry per passage with the
entry at position `i` formatted from the rank-`i` passage under the 1-based
index `i+1` (so consecutive ranks occupy consecutive positions in both). -/
theorem rank_order_preserved (results : List RetrievalResult)
    (hall : ∀ r ∈ results, r.contentText.isSome)
    (i : Nat) (hi : i < results.length) (t : String)
    (ht : (results.get ⟨i, hi⟩).contentText = some t) :
    ∃ parts : List String,
      KBQuery.contextParts results = Except.ok parts
      ∧ parts.length = results.length
      ∧ parts.get? i = some ("Source " ++ toString (i + 1) ++ ":\n" ++ t)
      ∧ KBQuery.buildContext results
          = Except.ok (String.intercalate "\n\n" parts)
      ∧ (KBQuery.referenceEntries results).length = results.length
      ∧ (KBQuery.referenceEntries results).get? i
          = some (KBQuery.referenceEntry (i + 1) (results.get ⟨i, hi⟩)) := by
  obtain ⟨parts, hp, hlen, hget⟩ := contextPartsAux_ok results 1 hall
  refine ⟨parts, hp, hlen, ?_, ?_, referenceEntriesAux_length results 1, ?_⟩
  · have h := hget i hi t ht
    rw [Nat.add_comm 1 i] at h
    exact h
  · show (KBQuery.contextParts results).map (String.intercalate "\n\n")
      = Except.ok (String.intercalate "\n\n" parts)
    rw [show KBQuery.contextParts results = Except.ok parts from hp]
    rfl
  · have h := referenceEntriesAux_get results 1 i hi
    rw [Nat.add_comm 1 i] at h
    exact h

/-- Witness for C3, on a two-passage input at rank position 1. -/
theorem rank_order_preserved_witness :
    ∃ parts : List String,
      KBQuery.contextParts [r0, r1] = Except.ok parts
      ∧ parts.length = ([r0, r1] : List RetrievalResult).length
      ∧ parts.get? 1 = some ("Source " ++ toString 2 ++ ":\n" ++ "second passage")
      ∧ KBQuery.buildContext [r0, r1]
          = Except.ok (String.intercalate "\n\n" parts)
      ∧ (KBQuery.referenceEntries [r0, r1]).length
          = ([r0, r1] : List RetrievalResult).length
      ∧ (KBQuery.referenceEntries [r0, r1]).get? 1
          = some (KBQuery.referenceEntry 2 (([r0, r1] : List RetrievalResult).get ⟨1, by decide⟩)) :=
  rank_order_preserved [r0, r1] (by decide) 1 (by decide) "second passage" rfl

/-!
Claim C4.
-/

/-- Claim C4: when the external retrieval call fails, both retrieval
operations return an empty passage sequence instead of propagating the
exception: `query_knowledge_base` of `query_kb_retrieve.py` returns `[]`,
and the one of `query_knowledge_base.py` returns the dict whose
`retrievalResults` entry is the empty list (so the caller extracts an empty
sequence); the error is reported only by printing, which the embedding
drops. -/
theorem retrieval_error_yields_empty (e : String) :
    KBRetrieve.query_knowledge_base (Except.error e) = []
    ∧ KBQuery.query_knowledge_base (Except.error e) = some []
    ∧ (KBQuery.query_knowledge_base (Except.error e)).getD [] = [] :=
  ⟨rfl, rfl, rfl⟩

/-!
Claim C5.
-/

/-- Claim C5: when the external model-invocation call fails,
`generate_response` propagates the failure to its caller as an error and
never returns a normal result for it. -/
theorem generation_error_propagates (model_id prompt : String)
    (results : List RetrievalResult)
    (invoke : List (String × JVal) → Except String JVal)
    (e : String) (parts : List String)
    (hctx : KBQuery.contextParts results = Except.ok parts)
    (hinv : invoke (KBQuery.buildBody model_id
        (KBQuery.promptTemplate (String.intercalate "\n\n" parts) prompt))
      = Except.error e) :
    KBQuery.generate_response model_id prompt results invoke = Except.error e := by
  simp [KBQuery.generate_response, hctx, hinv]

/-- Witness for C5, with an invocation oracle that always fails. -/
theorem generation_error_propagates_witness :
    KBQuery.generate_response "anthropic.claude-v2" "What is the payload capacity?"
      [] (fun _ => Except.error "ServiceUnavailableException")
      = Except.error "ServiceUnavailableException" :=
  generation_error_propagates "anthropic.claude-v2" "What is the payload capacity?"
    [] (fun _ => Except.error "ServiceUnavailableException")
    "ServiceUnavailableException" [] rfl rfl

/-!
Claim C6.
-/

/-- Claim C6: `generate_response` shapes the request body by model family.
When the lowered identifier contains "claude" the body's field names are
`prompt` (whose value wraps the full prompt in Human/Assistant markers) and
`max_tokens_to_sample` (plus the sampling fields); for every other
identifier — including those containing "titan" — the field names are
`prompt` (the bare full prompt) and `max_tokens`. -/
theorem buildBody_field_names (model_id full_prompt : String) :
    (pyIn "claude" (pyLower model_id) = true →
      (KBQuery.buildBody model_id full_prompt).map Prod.fst
        = ["prompt", "max_tokens_to_sample", "temperature", "top_p"]
      ∧ (KBQuery.buildBody model_id full_prompt).lookup "prompt"
        = some (JVal.s ("\n\nHuman: " ++ full_prompt ++ "\n\nAssistant:")))
    ∧ (pyIn "claude" (pyLower model_id) = false →
      (KBQuery.buildBody model_id full_prompt).map Prod.fst
        = ["prompt", "max_tokens", "temperature", "top_p"]
      ∧ (KBQuery.buildBody model_id full_prompt).lookup "prompt"
        = some (JVal.s full_prompt)) := by
  constructor
  · intro h
    unfold KBQuery.buildBody
    rw [if_pos h]
    exact ⟨rfl, rfl⟩
  · intro h
    unfold KBQuery.buildBody
    rw [if_neg (by simp [h])]
    exact ⟨rfl, rfl⟩

/-- Witness for C6, at a claude identifier and at a titan identifier. -/
theorem buildBody_field_names_witness :
    ((KBQuery.buildBody "anthropic.claude-v2" "P").map Prod.fst
      = ["prompt", "max_tokens_to_sample", "temperature", "top_p"]
     ∧ (KBQuery.buildBody "anthropic.claude-v2" "P").lookup "prompt"
      = some (JVal.s ("\n\nHuman: " ++ "P" ++ "\n\nAssistant:")))
    ∧ ((KBQuery.buildBody "amazon.titan-text-express-v1" "P").map Prod.fst
      = ["prompt", "max_tokens", "temperature", "top_p"]
     ∧ (KBQuery.buildBody "amazon.titan-text-express-v1" "P").lookup "prompt"
      = some (JVal.s "P")) :=
  ⟨(buildBody_field_names "anthropic.claude-v2" "P").1 (by decide),
   (buildBody_field_names "amazon.titan-text-express-v1" "P").2 (by decide)⟩

/-!
Claim C7.
-/

/-- Claim C7 counterexample: for a titan identifier, when the response body
contains the key `results` mapped to an *empty* list, the generated-text
field `results[0].outputText` is absent, yet extraction raises `IndexError`
(which `generate_response` re-raises) instead of returning the
"No response generated" sentinel. -/
theorem extractText_titan_empty_results_ce :
    KBQuery.extractText "amazon.titan-text-express-v1"
        (JVal.obj [("results", JVal.arr [])]) = Except.error "IndexError"
    ∧ KBQuery.extractText "amazon.titan-text-express-v1"
        (JVal.obj [("results", JVal.arr [])])
      ≠ Except.ok (JVal.s "No response generated") :=
  ⟨rfl, fun h => nomatch h⟩

/-- Claim C7 (amended): extraction follows the family-specific path.  For
identifiers containing "claude": the `completion` field, with the sentinel
"No response generated" when it is absent.  For identifiers containing
"titan" (and not "claude"): the `outputText` field of `results[0]`, where
the sentinel is returned when the `results` key is absent or when
`outputText` is absent from the first element, but when `results` is
present and empty the extraction fails with `IndexError` instead of
returning the sentinel. -/
theorem extractText_family_paths (model_id : String) (fs : List (String × JVal)) :
    (pyIn "claude" (pyLower model_id) = true →
      (fs.lookup "completion" = none →
        KBQuery.extractText model_id (JVal.obj fs)
          = Except.ok (JVal.s "No response generated"))
      ∧ ∀ v, fs.lookup "completion" = some v →
          KBQuery.extractText model_id (JVal.obj fs) = Except.ok v)
    ∧ (pyIn "claude" (pyLower model_id) = false →
       pyIn "titan" (pyLower model_id) = true →
      (fs.lookup "results" = none →
        KBQuery.extractText model_id (JVal.obj fs)
          = Except.ok (JVal.s "No response generated"))
      ∧ (fs.lookup "results" = some (JVal.arr []) →
        KBQuery.extractText model_id (JVal.obj fs) = Except.error "IndexError")
      ∧ ∀ gs tl, fs.lookup "results" = some (JVal.arr (JVal.obj gs :: tl)) →
          ((gs.lookup "outputText" = none →
            KBQuery.extractText model_id (JVal.obj fs)
              = Except.ok (JVal.s "No response generated"))
          ∧ ∀ v, gs.lookup "outputText" = some v →
              KBQuery.extractText model_id (JVal.obj fs) = Except.ok v)) := by
  constructor
  · intro hc
    constructor
    · intro hnone
      simp [KBQuery.extractText, hc, KBQuery.pyGet, hnone]
    · intro v hv
      simp [KBQuery.extractText, hc, KBQuery.pyGet, hv]
  · intro hc htn
    refine ⟨?_, ?_, ?_⟩
    · intro hnone
      simp [KBQuery.extractText, hc, htn, KBQuery.pyGet, KBQuery.pyIndex, hnone,
        List.lookup]
    · intro hsome
      simp [KBQuery.extractText, hc, htn, KBQuery.pyGet, KBQuery.pyIndex, hsome]
    · intro gs tl hsome
      constructor
      · intro hnone
        simp [KBQuery.extractText, hc, htn, KBQuery.pyGet, KBQuery.pyIndex, hsome,
          hnone]
      · intro v hv
        simp [KBQuery.extractText, hc, htn, KBQuery.pyGet, KBQuery.pyIndex, hsome,
          hv]

/-- Witness for the amended C7 theorem: a claude body without `completion`,
a titan body without `results`, and a titan body with a populated
`results[0].outputText`. -/
theorem extractText_family_paths_witness :
    KBQuery.extractText "anthropic.claude-v2" (JVal.obj [])
      = Except.ok (JVal.s "No response generated")
    ∧ KBQuery.extractText "amazon.titan-text-express-v1" (JVal.obj [])
      = Except.ok (JVal.s "No response generated")
    ∧ KBQuery.extractText "amazon.titan-text-express-v1"
        (JVal.obj [("results", JVal.arr [JVal.obj [("outputText", JVal.s "hi")]])])
      = Except.ok (JVal.s "hi") :=
  ⟨((extractText_family_paths "anthropic.claude-v2" []).1 (by decide)).1 rfl,
   ((extractText_family_paths "amazon.titan-text-express-v1" []).2 (by decide)
      (by decide)).1 rfl,
   (((extractText_family_paths "amazon.titan-text-express-v1"
        [("results", JVal.arr [JVal.obj [("outputText", JVal.s "hi")]])]).2
      (by decide) (by decide)).2.2 [("outputText", JVal.s "hi")] [] rfl).2
     (JVal.s "hi") rfl⟩

/-!
Claim C8.
-/

/-- Claim C8: when retrieval yields zero passages, the pipeline terminates
in the NO_RESULTS outcome.  The model-invocation oracle `invoke` is
universally quantified and absent from the conclusion, so generation is
never invoked; `format_references` likewise only occurs in the `success`
outcome, which is not reached. -/
theorem empty_retrieval_no_results
    (retrCall : Except String (Option (List RetrievalResult)))
    (invoke : List (String × JVal) → Except String JVal)
    (model_id query : String)
    (h : (KBQuery.query_knowledge_base retrCall).getD [] = []) :
    KBQuery.mainPipeline retrCall invoke model_id query
      = KBQuery.Outcome.noResults := by
  simp [KBQuery.mainPipeline, h]

/-- Witness for C8, with an invocation oracle that would fail if it were
ever consulted. -/
theorem empty_retrieval_no_results_witness :
    KBQuery.mainPipeline (Except.ok (some []))
      (fun _ => Except.error "InvokeShouldNeverBeReached") "anthropic.claude-v2"
      "What is the payload capacity of the DT1000?"
      = KBQuery.Outcome.noResults :=
  empty_retrieval_no_results (Except.ok (some []))
    (fun _ => Except.error "InvokeShouldNeverBeReached") "anthropic.claude-v2"
    "What is the payload capacity of the DT1000?" rfl

/-!
Claim C9.
-/

/-- Claim C9 counterexample: a failing retrieval call and a genuinely empty
retrieval produce the *same* terminal outcome `noResults` — the pipeline's
observer cannot tell an external retrieval failure apart from an empty
result set, contradicting the claimed distinguishability. -/
theorem retrieval_failure_conflated_ce :
    KBQuery.mainPipeline (Except.error "ThrottlingException")
      (fun _ => Except.ok (JVal.obj [("completion", JVal.s "an answer")]))
      "anthropic.claude-v2" "q" = KBQuery.Outcome.noResults
    ∧ KBQuery.mainPipeline (Except.ok (some []))
      (fun _ => Except.ok (JVal.obj [("completion", JVal.s "an answer")]))
      "anthropic.claude-v2" "q" = KBQuery.Outcome.noResults :=
  ⟨rfl, rfl⟩

/-- Claim C9 (amended): only generation-step failures are surfaced as an
error outcome distinguishable from NO_RESULTS; retrieval-step failures are
converted into an empty result set and terminate in NO_RESULTS,
indistinguishable from a genuinely empty retrieval. -/
theorem failure_surfacing_policy (e model_id query : String)
    (invoke : List (String × JVal) → Except String JVal)
    (r : RetrievalResult) (t : String)
    (ht : r.contentText = some t)
    (hinv : ∀ b, invoke b = Except.error e) :
    KBQuery.mainPipeline (Except.error e) invoke model_id query
      = KBQuery.Outcome.noResults
    ∧ KBQuery.mainPipeline (Except.ok (some [r])) invoke model_id query
      = KBQuery.Outcome.error e
    ∧ KBQuery.Outcome.error e ≠ KBQuery.Outcome.noResults := by
  refine ⟨rfl, ?_, fun h => KBQuery.Outcome.noConfusion h⟩
  simp [KBQuery.mainPipeline, KBQuery.query_knowledge_base,
    KBQuery.generate_response, KBQuery.contextParts, KBQuery.contextPartsAux,
    ht, hinv]

/-- Witness for the amended C9 theorem. -/
theorem failure_surfacing_policy_witness :
    KBQuery.mainPipeline (Except.error "AccessDeniedException")
      (fun _ => Except.error "AccessDeniedException") "anthropic.claude-v2" "q"
      = KBQuery.Outcome.noResults
    ∧ KBQuery.mainPipeline (Except.ok (some [r0]))
      (fun _ => Except.error "AccessDeniedException") "anthropic.claude-v2" "q"
      = KBQuery.Outcome.error "AccessDeniedException"
    ∧ KBQuery.Outcome.error "AccessDeniedException" ≠ KBQuery.Outcome.noResults :=
  failure_surfacing_policy "AccessDeniedException" "anthropic.claude-v2" "q"
    (fun _ => Except.error "AccessDeniedException") r0 "short" rfl (fun _ => rfl)

/-!
Claim C10.
-/

/-- Claim C10: for a model identifier containing neither "claude" nor
"titan" (case-insensitively), extraction returns the Python `str` rendering
of the entire parsed response dict — never the "No response generated"
sentinel (a dict rendering starts with a brace) and never an extracted
field. -/
theorem unknown_family_returns_str_of_body (model_id : String)
    (fs : List (String × JVal))
    (hc : pyIn "claude" (pyLower model_id) = false)
    (ht : pyIn "titan" (pyLower model_id) = false) :
    KBQuery.extractText model_id (JVal.obj fs)
      = Except.ok (JVal.s (JVal.render (JVal.obj fs)))
    ∧ JVal.render (JVal.obj fs) ≠ "No response generated" := by
  constructor
  · simp [KBQuery.extractText, hc, ht]
  · exact render_obj_ne_sentinel fs

/-- Witness for C10, at a llama identifier. -/
theorem unknown_family_returns_str_of_body_witness :
    KBQuery.extractText "meta.llama3-70b-instruct-v1" (JVal.obj [("x", JVal.n 1)])
      = Except.ok (JVal.s (JVal.render (JVal.obj [("x", JVal.n 1)])))
    ∧ JVal.render (JVal.obj [("x", JVal.n 1)]) ≠ "No response generated" :=
  unknown_family_returns_str_of_body "meta.llama3-70b-instruct-v1"
    [("x", JVal.n 1)] (by decide) (by decide)

end BedrockKB
